import Mathlib

/-!
Shallow embedding of `src/scrapy_sessions/objects.py` (the only source file
of the repository) and proofs about it.

Modelling conventions:
* Python `str` values are modelled as `List Char` (`PyStr`) so that the
  string formatting done by `Sessions._httpcookie_to_str` is plain list
  concatenation.
* Python dicts used as finite maps (the jar ledger, `Profiles.ref`,
  `request.meta`, `request.headers`) are modelled as association lists with
  update-or-append assignment (`updA`) and first-match lookup (`lookupA`);
  session ids are modelled as `Nat`.
* Exceptions are modelled explicitly with `PyError`; `raise UsageError(...)`
  in `Sessions.get_profile` evaluates the *name* `UsageError`, which is
  neither imported nor defined in `objects.py`, so the faithful embedding of
  that statement is a `NameError` for the identifier `UsageError`.
* The external cookie-jar type (`scrapy.http.cookies.CookieJar`, accessed
  only through its `_cookies` nested dict, `clear()` and attribute slots) is
  embedded as the nested association structure
  domain -> path -> name -> cookie that `objects.py` traverses.
* Engine interaction in `Sessions.clear` (scheduling the renewal request) is
  external I/O; only the jar mutation performed by `clear` is modelled.
-/

set_option synthInstance.maxSize 1000

/-- Python strings, modelled as lists of characters. -/
abbrev PyStr := List Char

/-- Python exceptions raised (or raisable) by the embedded code. -/
inductive PyError where
  | keyError
  | indexError
  | nameError (nm : String)
  deriving DecidableEq, Repr

/-- First-match lookup in an association list: `d.get(k)` / `d[k]`. -/
def lookupA {K V : Type} [DecidableEq K] : List (K × V) → K → Option V
  | [], _ => none
  | (k, v) :: rest, k' => if k' = k then some v else lookupA rest k'

/-- Dict assignment `d[k] = v`: replace the existing binding, else append. -/
def updA {K V : Type} [DecidableEq K] : List (K × V) → K → V → List (K × V)
  | [], k, v => [(k, v)]
  | (k0, v0) :: rest, k, v =>
    if k = k0 then (k0, v) :: rest else (k0, v0) :: updA rest k v

/-- A profile: a dict with the two optional keys `objects.py` probes,
`proxy` (a pair of proxy address and `Proxy-Authorization` header value) and
`user-agent` (a string). -/
structure Profile where
  proxy : Option (String × String)
  user_agent : Option String
  deriving DecidableEq, Repr

/-- The slice of the external request object that `objects.py` touches:
its `meta` dict and its `headers` mapping. -/
structure Request where
  meta : List (String × String)
  headers : List (String × String)
  deriving DecidableEq, Repr

/-- The dict/header keys written by `Profiles.add_profile`. -/
def proxyKey : String := "proxy"

def proxyAuthKey : String := "Proxy-Authorization"

def userAgentKey : String := "User-Agent"

/-- State of a `Profiles` object: the loaded profile list, the two rotation
queues of indices, and the session ledger `ref`. -/
structure ProfilesState where
  profiles : List Profile
  available : List Nat
  used : List Nat
  ref : List (Nat × Profile)
  deriving DecidableEq, Repr

/-- `Profiles.__init__(profiles)`: `available = list(range(len(profiles)))`,
`used = []`, `ref = {}`. -/
def Profiles.init (profiles : List Profile) : ProfilesState :=
  { profiles := profiles
    available := List.range profiles.length
    used := []
    ref := [] }

/-- `Profiles.get_fresh()`.  `available.pop(0)` pops the head; on
`IndexError` (empty `available`) the code aliases `available = used`, pops
the head of the shared list, then rebinds `used = []`; finally
`used.append(out)`.  After the aliasing is resolved this leaves
`available = old used minus its head` and `used = [out]`.  An empty `used`
at that point re-raises `IndexError` uncaught (`none`). -/
def Profiles.get_fresh (p : ProfilesState) : Option (Nat × ProfilesState) :=
  match p.available with
  | o :: rest => some (o, { p with available := rest, used := p.used ++ [o] })
  | [] =>
    match p.used with
    | [] => none
    | o :: rest => some (o, { p with available := rest, used := [o] })

/-- `Profiles.new_session(session_id)`: assigns
`self.ref[session_id] = self.profiles[self.get_fresh()]`; an out-of-range
index would raise `IndexError` (`none`). -/
def Profiles.new_session (p : ProfilesState) (session_id : Nat) :
    Option ProfilesState :=
  match Profiles.get_fresh p with
  | none => none
  | some (i, p1) =>
    match p1.profiles[i]? with
    | none => none
    | some prof => some { p1 with ref := updA p1.ref session_id prof }

/-- `Profiles.add_profile(session_id, request)` mutates the request in
place; the embedding returns the request paired with the raised exception,
if any.  `self.ref[session_id]` raises `KeyError` before any mutation, so on
that error the request is returned untouched. -/
def Profiles.add_profile (p : ProfilesState) (session_id : Nat)
    (request : Request) : Request × Option PyError :=
  match lookupA p.ref session_id with
  | none => (request, some PyError.keyError)
  | some profile =>
    let r1 :=
      match profile.proxy with
      | some pr =>
        { request with
          meta := updA request.meta proxyKey pr.1
          headers := updA request.headers proxyAuthKey pr.2 }
      | none => request
    let r2 :=
      match profile.user_agent with
      | some ua => { r1 with headers := updA r1.headers userAgentKey ua }
      | none => r1
    (r2, none)

/-- Run `n` consecutive `get_fresh()` calls, collecting the returned
indices in call order. -/
def Profiles.runFresh : ProfilesState → Nat → Option (List Nat × ProfilesState)
  | p, 0 => some ([], p)
  | p, n + 1 =>
    match Profiles.get_fresh p with
    | none => none
    | some (o, p1) =>
      match Profiles.runFresh p1 n with
      | none => none
      | some (l, p2) => some (o :: l, p2)

/-- An `http.cookiejar.Cookie` as read by `objects.py`: the attributes
`name`, `value`, `expires`, `path`, `domain`.  `expires` is the numeric
timestamp handed to `time2netscape`. -/
structure Cookie where
  name : PyStr
  value : PyStr
  expires : Nat
  path : PyStr
  domain : PyStr
  deriving DecidableEq, Repr

/-- The external `http.cookiejar.time2netscape` formatter, modelled as an
injective rendering of the timestamp into characters; the claims under
verification depend only on it being a function of `expires`. -/
def time2netscape (t : Nat) : PyStr :=
  Nat.toDigits 10 t

/-- A `DynamicJar`: the external cookie jar's nested `_cookies` storage
(domain -> path -> name -> cookie, as association lists) plus the two
attributes `DynamicJar.__init__` adds. -/
structure DynamicJar where
  cookies : List (PyStr × List (PyStr × List (PyStr × Cookie)))
  needs_renewal : Bool
  times_renewed : Nat
  deriving DecidableEq, Repr

/-- The per-(domain, path) cookie dicts of a jar, in iteration order:
`itertools.chain.from_iterable(p.values() for p in jar._cookies.values())`,
i.e. the `full_cookies` list built by `Sessions._flatten_cookiejar`. -/
def DynamicJar.pathBuckets (jar : DynamicJar) :
    List (List (PyStr × Cookie)) :=
  (jar.cookies.map (fun d => d.2.map (fun pr => pr.2))).flatten

/-- All cookies actually stored in the jar (every leaf of the nested
domain/path/name storage), in iteration order. -/
def DynamicJar.leaves (jar : DynamicJar) : List Cookie :=
  (jar.pathBuckets.map (fun b => b.map (fun e => e.2))).flatten

/-- Number of cookies stored in the jar. -/
def DynamicJar.leafCount (jar : DynamicJar) : Nat :=
  jar.leaves.length

/-- The cookie sequence consumed from the lazy
`map(lambda f_k: next(iter(f_k.values())), full_cookies)` iterator by
`Sessions.get`: the first cookie of each (domain, path) dict.  For an empty
dict, `next` raises `StopIteration`, which the consuming `for` loop treats
as normal end of iteration, so the sequence stops at the first empty
dict. -/
def firstPerBucket : List (List (PyStr × Cookie)) → List Cookie
  | [] => []
  | [] :: _ => []
  | (e :: _) :: rest => e.2 :: firstPerBucket rest

/-- `Sessions._flatten_cookiejar(jar)` as consumed by `Sessions.get`. -/
def Sessions.flatten_cookiejar (jar : DynamicJar) : List Cookie :=
  firstPerBucket jar.pathBuckets

/-- The `mode` argument of `Sessions.get`: the code only tests
`mode == dict`, and the default is `None`; any value other than the `dict`
type behaves like `None`. -/
inductive PyMode where
  | dict
  | noneV
  deriving DecidableEq, Repr

/-- One element of the list built by `Sessions.get`: either the
single-entry dict `{cookie.name: cookie.value}` from
`Sessions._httpcookie_to_dict`, or the formatted string from
`Sessions._httpcookie_to_str`. -/
inductive Entry where
  | dictE (name value : PyStr)
  | strE (s : PyStr)
  deriving DecidableEq, Repr

/-- `Sessions._httpcookie_to_dict(cookie)`. -/
def Sessions.httpcookie_to_dict (c : Cookie) : Entry :=
  Entry.dictE c.name c.value

/-- `Sessions._httpcookie_to_str(cookie)`:
`f-string of content; expires; path; domain` where
`content = name + eq + value`, `expires = expires= + time2netscape(...)`,
`path = path= + path`, `domain = domain= + domain`. -/
def Sessions.httpcookie_to_str (c : Cookie) : Entry :=
  Entry.strE ((c.name ++ "=".data ++ c.value)
    ++ "; ".data ++ ("expires=".data ++ time2netscape c.expires)
    ++ "; ".data ++ ("path=".data ++ c.path)
    ++ "; ".data ++ ("domain=".data ++ c.domain))

/-- The per-cookie formatting chosen by the `mode == dict` test inside
`Sessions.get`. -/
def formatCookie (mode : PyMode) (c : Cookie) : Entry :=
  match mode with
  | PyMode.dict => Sessions.httpcookie_to_dict c
  | PyMode.noneV => Sessions.httpcookie_to_str c

/-- Return value of `Sessions.get`: the early-exit empty dict `{}` or the
`neat_cookies` list. -/
inductive GetResult where
  | emptyDict
  | list (entries : List Entry)
  deriving DecidableEq, Repr

/-- State of a `Sessions` object: its jar ledger and the optional
`Profiles` object (`None` when `SESSIONS_PROFILES_SYNC` is not enabled).
The `spider` and `engine` attributes are external handles that the
modelled operations never read. -/
structure SessionsState where
  jars : List (Nat × DynamicJar)
  profiles : Option ProfilesState
  deriving Repr

/-- `Sessions._get(session_id)`: `self.jars[session_id]`; a missing key is
a `KeyError` (`none`). -/
def Sessions.jar_get (s : SessionsState) (session_id : Nat) :
    Option DynamicJar :=
  lookupA s.jars session_id

/-- `Sessions.get(session_id, mode)`: returns `{}` when the jar's
top-level `_cookies` dict is empty, otherwise the list of formatted
cookies consumed from the flattening iterator. -/
def Sessions.get (s : SessionsState) (session_id : Nat) (mode : PyMode) :
    Option GetResult :=
  match Sessions.jar_get s session_id with
  | none => none
  | some jar =>
    if jar.cookies = [] then some GetResult.emptyDict
    else some (GetResult.list
      ((Sessions.flatten_cookiejar jar).map (formatCookie mode)))

/-- `Sessions.get_profile(session_id)`.  When profile sync is enabled it
returns `self.profiles.ref.get(session_id, None)`.  Otherwise the `raise`
statement evaluates the identifier `UsageError`, which `objects.py` never
imports or defines, so Python raises `NameError` for that name. -/
def Sessions.get_profile (s : SessionsState) (session_id : Nat) :
    Except PyError (Option Profile) :=
  match s.profiles with
  | some p => Except.ok (lookupA p.ref session_id)
  | none => Except.error (PyError.nameError "UsageError")

/-- `Sessions.clear(session_id, renewal_request)`: sets
`jar.needs_renewal = True` and empties the jar with `jar.clear()`.  The
optional renewal request is dispatched to the external engine and does not
touch the jar; only its presence is modelled. -/
def Sessions.clear (s : SessionsState) (session_id : Nat)
    (renewal_request : Option Request) : Option SessionsState :=
  match Sessions.jar_get s session_id with
  | none => none
  | some jar =>
    some { s with
      jars := updA s.jars session_id
        { jar with needs_renewal := true, cookies := [] } }

/-! ### Association-list lemmas -/

theorem lookupA_updA_self {K V : Type} [DecidableEq K]
    (l : List (K × V)) (k : K) (v : V) :
    lookupA (updA l k v) k = some v := by
  induction l with
  | nil => simp [updA, lookupA]
  | cons hd tl ih =>
    obtain ⟨k0, v0⟩ := hd
    by_cases h : k = k0
    · subst h; simp [updA, lookupA]
    · simp [updA, lookupA, h, ih]

theorem lookupA_updA_ne {K V : Type} [DecidableEq K]
    (l : List (K × V)) (k k' : K) (v : V) (hne : k' ≠ k) :
    lookupA (updA l k v) k' = lookupA l k' := by
  induction l with
  | nil => simp [updA, lookupA, hne]
  | cons hd tl ih =>
    obtain ⟨k0, v0⟩ := hd
    by_cases h : k = k0
    · subst h; simp [updA, lookupA, hne]
    · simp [updA, lookupA, h, ih]

/-! ### Rotation lemmas for `Profiles.get_fresh` -/

/-- Running `get_fresh` once per element of `available` pops exactly the
`available` queue, in order, moving it onto the back of `used`. -/
theorem runFresh_avail (a : List Nat) :
    ∀ (profs : List Profile) (u : List Nat) (r : List (Nat × Profile)),
    Profiles.runFresh ⟨profs, a, u, r⟩ a.length
      = some (a, ⟨profs, [], u ++ a, r⟩) := by
  induction a with
  | nil => intro profs u r; simp [Profiles.runFresh]
  | cons o as ih =>
    intro profs u r
    show Profiles.runFresh _ (as.length + 1) = _
    simp only [Profiles.runFresh, Profiles.get_fresh]
    rw [ih profs (u ++ [o]) r]
    simp

/-- Composing two `runFresh` runs. -/
theorem runFresh_append {p p1 p2 : ProfilesState} {m n : Nat}
    {l1 l2 : List Nat}
    (h1 : Profiles.runFresh p m = some (l1, p1))
    (h2 : Profiles.runFresh p1 n = some (l2, p2)) :
    Profiles.runFresh p (m + n) = some (l1 ++ l2, p2) := by
  induction m generalizing p l1 with
  | zero =>
    simp only [Profiles.runFresh, Option.some.injEq, Prod.mk.injEq] at h1
    obtain ⟨h1a, h1b⟩ := h1
    subst h1a
    subst h1b
    simpa using h2
  | succ m ih =>
    rw [Nat.succ_add]
    cases hg : Profiles.get_fresh p with
    | none =>
      simp [Profiles.runFresh, hg] at h1
    | some op =>
      obtain ⟨o, pmid⟩ := op
      simp only [Profiles.runFresh, hg] at h1 ⊢
      cases hr : Profiles.runFresh pmid m with
      | none => simp [hr] at h1
      | some lp =>
        obtain ⟨l, pend⟩ := lp
        simp only [hr, Option.some.injEq, Prod.mk.injEq] at h1
        obtain ⟨h1a, h1b⟩ := h1
        subst h1a
        subst h1b
        rw [ih hr]
        simp

/-- Running `get_fresh` from an exhausted `available` queue replays the
`used` queue in order and restores the same state. -/
theorem runFresh_used (profs : List Profile) (o : Nat) (us : List Nat)
    (r : List (Nat × Profile)) :
    Profiles.runFresh ⟨profs, [], o :: us, r⟩ (us.length + 1)
      = some (o :: us, ⟨profs, [], o :: us, r⟩) := by
  simp only [Profiles.runFresh, Profiles.get_fresh]
  rw [runFresh_avail us profs [o] r]
  simp

/-! ### Concrete fixtures used by witnesses and counterexamples -/

/-- A concrete two-profile pool. -/
def twoProfiles : List Profile :=
  [{ proxy := none, user_agent := none },
   { proxy := some ("http://10.0.0.1:8080", "Basic dXNlcjpwdw=="),
     user_agent := some "agent-B" }]

/-! ### C1 -/

/-- C1: starting from `Profiles.__init__` with `N >= 1` profiles, the first
`N` consecutive `get_fresh()` calls return the indices `0, 1, ..., N-1` in
that order, and the next `N` calls (so in particular the `(N+1)`th call,
which returns `0`) replay exactly the same order, returning to the same
rotation state. -/
theorem profiles_rotation_order (profs : List Profile)
    (h : 1 ≤ profs.length) :
    (∃ p1, Profiles.runFresh (Profiles.init profs) (profs.length + 1)
      = some (List.range profs.length ++ [0], p1)) ∧
    Profiles.runFresh (Profiles.init profs) (profs.length + profs.length)
      = some (List.range profs.length ++ List.range profs.length,
          ⟨profs, [], List.range profs.length, []⟩) := by
  have hA := runFresh_avail (List.range profs.length) profs [] []
  rw [List.length_range] at hA
  simp only [List.nil_append] at hA
  obtain ⟨k, hk⟩ : ∃ k, profs.length = k + 1 := ⟨profs.length - 1, by omega⟩
  have hrange : List.range profs.length
      = 0 :: List.map Nat.succ (List.range k) := by
    rw [hk, List.range_succ_eq_map]
  have hB : Profiles.runFresh ⟨profs, [], List.range profs.length, []⟩
      profs.length
      = some (List.range profs.length,
          ⟨profs, [], List.range profs.length, []⟩) := by
    rw [hrange]
    have hu := runFresh_used profs 0 (List.map Nat.succ (List.range k)) []
    simpa [hk] using hu
  constructor
  · have hC : Profiles.runFresh ⟨profs, [], List.range profs.length, []⟩ 1
        = some ([0], ⟨profs, List.map Nat.succ (List.range k), [0], []⟩) := by
      rw [hrange]
      simp [Profiles.runFresh, Profiles.get_fresh]
    exact ⟨_, runFresh_append hA hC⟩
  · exact runFresh_append hA hB

/-- C1 witness: the rotation theorem applied to the concrete two-profile
pool. -/
theorem profiles_rotation_order_witness :
    Profiles.runFresh (Profiles.init twoProfiles)
      (twoProfiles.length + twoProfiles.length)
      = some (List.range twoProfiles.length ++ List.range twoProfiles.length,
          ⟨twoProfiles, [], List.range twoProfiles.length, []⟩) :=
  (profiles_rotation_order twoProfiles (by decide)).2

/-! ### C3 -/

/-- States of a `Profiles` object reachable from `__init__` by completed
`get_fresh()` and `new_session()` calls. -/
inductive Profiles.Reachable (profs : List Profile) : ProfilesState → Prop where
  | init : Profiles.Reachable profs (Profiles.init profs)
  | fresh {p p' : ProfilesState} {o : Nat} :
      Profiles.Reachable profs p →
      Profiles.get_fresh p = some (o, p') →
      Profiles.Reachable profs p'
  | session {p p' : ProfilesState} {sid : Nat} :
      Profiles.Reachable profs p →
      Profiles.new_session p sid = some p' →
      Profiles.Reachable profs p'

/-- A completed `get_fresh()` permutes the combined contents of the two
queues. -/
theorem get_fresh_perm {p p' : ProfilesState} {o : Nat} {X : List Nat}
    (hg : Profiles.get_fresh p = some (o, p'))
    (hp : (p.available ++ p.used).Perm X) :
    (p'.available ++ p'.used).Perm X := by
  cases ha : p.available with
  | cons o0 rest =>
    simp only [Profiles.get_fresh, ha, Option.some.injEq, Prod.mk.injEq] at hg
    obtain ⟨rfl, rfl⟩ := hg
    rw [ha] at hp
    refine List.Perm.trans ?_ hp
    show (rest ++ (p.used ++ [o0])).Perm (o0 :: rest ++ p.used)
    rw [← List.append_assoc]
    exact List.perm_append_singleton o0 (rest ++ p.used)
  | nil =>
    cases hu : p.used with
    | nil => simp [Profiles.get_fresh, ha, hu] at hg
    | cons o0 rest =>
      simp only [Profiles.get_fresh, ha, hu, Option.some.injEq,
        Prod.mk.injEq] at hg
      obtain ⟨rfl, rfl⟩ := hg
      rw [ha, hu] at hp
      simp only [List.nil_append] at hp
      exact List.Perm.trans (List.perm_append_singleton o0 rest) hp

/-- A completed `new_session()` permutes the combined contents of the two
queues (it only adds a ledger entry on top of `get_fresh()`). -/
theorem new_session_perm {p p' : ProfilesState} {sid : Nat} {X : List Nat}
    (hn : Profiles.new_session p sid = some p')
    (hp : (p.available ++ p.used).Perm X) :
    (p'.available ++ p'.used).Perm X := by
  unfold Profiles.new_session at hn
  cases hg : Profiles.get_fresh p with
  | none => simp [hg] at hn
  | some ip =>
    obtain ⟨i, p1⟩ := ip
    simp only [hg] at hn
    cases hi : p1.profiles[i]? with
    | none => simp [hi] at hn
    | some prof =>
      simp only [hi, Option.some.injEq] at hn
      subst hn
      have hstep := get_fresh_perm hg hp
      exact hstep

/-- In every reachable state, the two queues together hold a permutation of
the full index range. -/
theorem reachable_perm {profs : List Profile} {p : ProfilesState}
    (h : Profiles.Reachable profs p) :
    (p.available ++ p.used).Perm (List.range profs.length) := by
  induction h with
  | init => simp [Profiles.init]
  | fresh hr hg ih => exact get_fresh_perm hg ih
  | session hr hn ih => exact new_session_perm hn ih

/-- C3: after `__init__` and after every completed `get_fresh()` (hence
also `new_session()`) call, `available` and `used` are disjoint and their
union is exactly the index set `0..N-1`. -/
theorem profiles_invariant (profs : List Profile) (h1 : 1 ≤ profs.length)
    (p : ProfilesState) (hr : Profiles.Reachable profs p) :
    (∀ i ∈ p.available, i ∉ p.used) ∧
    (∀ i, (i ∈ p.available ∨ i ∈ p.used) ↔ i < profs.length) := by
  have hperm := reachable_perm hr
  have hnd : (p.available ++ p.used).Nodup :=
    hperm.nodup_iff.mpr (List.nodup_range profs.length)
  constructor
  · intro i hia hiu
    exact (List.nodup_append.mp hnd).2.2 hia hiu
  · intro i
    have hm := hperm.mem_iff (a := i)
    simpa [List.mem_append, List.mem_range] using hm

/-- C3 witness: the invariant instantiated at the freshly initialised
two-profile pool (index `0` is held by exactly the two queues). -/
theorem profiles_invariant_witness :
    (0 ∈ (Profiles.init twoProfiles).available
      ∨ 0 ∈ (Profiles.init twoProfiles).used)
    ↔ 0 < twoProfiles.length :=
  (profiles_invariant twoProfiles (by decide) _ Profiles.Reachable.init).2 0

/-! ### Cookie-jar fixtures -/

/-- Cookie `n1=v1` for domain `d`, path `p`. -/
def cookieA : Cookie :=
  { name := "n1".data, value := "v1".data, expires := 0,
    path := "p".data, domain := "d".data }

/-- Cookie `n2=v2` for domain `d`, path `p`. -/
def cookieB : Cookie :=
  { name := "n2".data, value := "v2".data, expires := 0,
    path := "p".data, domain := "d".data }

/-- A jar holding two cookies under the same (domain, path) pair. -/
def jarTwoNames : DynamicJar :=
  { cookies := [("d".data,
      [("p".data, [("n1".data, cookieA), ("n2".data, cookieB)])])],
    needs_renewal := false, times_renewed := 0 }

/-- Sessions state whose only jar is `jarTwoNames`, profile sync off. -/
def sTwoNames : SessionsState :=
  { jars := [(0, jarTwoNames)], profiles := none }

/-- A jar holding one cookie in each of two (domain, path) pairs. -/
def jarTwoBuckets : DynamicJar :=
  { cookies :=
      [("d1".data, [("p".data, [("n1".data, cookieA)])]),
       ("d2".data, [("p".data, [("n2".data, cookieB)])])],
    needs_renewal := false, times_renewed := 0 }

/-- Sessions state whose only jar is `jarTwoBuckets`. -/
def sTwoBuckets : SessionsState :=
  { jars := [(0, jarTwoBuckets)], profiles := none }

/-- A jar whose nested storage still has a domain and a path entry but no
cookie under them (the state `http.cookiejar.CookieJar.clear(d, p, n)`
leaves behind after deleting the last cookie of a path). -/
def jarHollow : DynamicJar :=
  { cookies := [("d".data, [("p".data, [])])],
    needs_renewal := false, times_renewed := 0 }

/-- Sessions state whose only jar is `jarHollow`. -/
def sHollow : SessionsState :=
  { jars := [(0, jarHollow)], profiles := none }

/-- A jar with empty top-level storage. -/
def jarEmpty : DynamicJar :=
  { cookies := [], needs_renewal := false, times_renewed := 0 }

/-- Sessions state holding `jarEmpty` under session id 5. -/
def sEmpty : SessionsState :=
  { jars := [(5, jarEmpty)], profiles := none }

/-! ### C2 -/

/-- C2 counterexample: a jar storing two cookies under one (domain, path)
pair has two leaves, but `Sessions.get` returns a single entry — only the
first cookie of the pair's dict; `n2=v2` never appears. -/
theorem get_drops_second_cookie :
    DynamicJar.leafCount jarTwoNames = 2 ∧
    Sessions.get sTwoNames 0 PyMode.dict
      = some (GetResult.list [Entry.dictE "n1".data "v1".data]) := by
  decide

/-- When every (domain, path) dict holds exactly one cookie, the consumed
flattening is exactly the jar's leaf sequence. -/
theorem firstPerBucket_singletons :
    ∀ (bs : List (List (PyStr × Cookie))),
    (∀ b ∈ bs, b.length = 1) →
    firstPerBucket bs = (bs.map (fun b => b.map (fun e => e.2))).flatten := by
  intro bs
  induction bs with
  | nil => intro _; rfl
  | cons b rest ih =>
    intro h
    have hb : b.length = 1 := h b (by simp)
    have hrest : ∀ x ∈ rest, x.length = 1 := fun x hx => h x (by simp [hx])
    cases b with
    | nil => simp at hb
    | cons e t =>
      cases t with
      | nil =>
        simp only [firstPerBucket, List.map_cons, List.flatten_cons]
        rw [ih hrest]
        simp
      | cons e2 t2 => simp at hb

/-- C2 amended: `Sessions.get` returns one formatted entry per
(domain, path) dict — that dict's first cookie — so when every
(domain, path) dict of a non-empty jar holds exactly one cookie, every
cookie of the jar appears exactly once, in storage order. -/
theorem get_one_entry_per_cookie (s : SessionsState) (sid : Nat)
    (jar : DynamicJar) (mode : PyMode)
    (hj : Sessions.jar_get s sid = some jar)
    (hne : jar.cookies ≠ [])
    (hb : ∀ b ∈ jar.pathBuckets, b.length = 1) :
    Sessions.get s sid mode
      = some (GetResult.list (jar.leaves.map (formatCookie mode))) := by
  unfold Sessions.get
  rw [hj]
  show (if jar.cookies = [] then some GetResult.emptyDict
      else some (GetResult.list
        ((Sessions.flatten_cookiejar jar).map (formatCookie mode))))
    = some (GetResult.list (jar.leaves.map (formatCookie mode)))
  rw [if_neg hne]
  unfold Sessions.flatten_cookiejar DynamicJar.leaves
  rw [firstPerBucket_singletons _ hb]

/-- C2 witness: on a jar with two singleton (domain, path) dicts, `get`
returns exactly the two cookies' entries. -/
theorem get_one_entry_per_cookie_witness :
    Sessions.get sTwoBuckets 0 PyMode.dict
      = some (GetResult.list
          (jarTwoBuckets.leaves.map (formatCookie PyMode.dict))) :=
  get_one_entry_per_cookie sTwoBuckets 0 jarTwoBuckets PyMode.dict
    (by decide) (by decide) (by decide)

/-! ### C9 -/

/-- C9 counterexample: `jarHollow` contains no cookies at all, yet
`Sessions.get` returns the empty *list* `[]`, not the empty dict `{}`,
because the top-level `_cookies` dict is non-empty. -/
theorem get_hollow_jar_returns_list :
    DynamicJar.leafCount jarHollow = 0 ∧
    Sessions.get sHollow 0 PyMode.noneV = some (GetResult.list []) ∧
    Sessions.get sHollow 0 PyMode.noneV ≠ some GetResult.emptyDict := by
  decide

/-- C9 amended: `Sessions.get` returns the empty dict `{}` (for every
mode) exactly for jars whose *top-level* `_cookies` dict is empty; a jar
with domain/path entries but no cookie leaves yields an empty list
instead. -/
theorem get_empty_storage_returns_empty_dict (s : SessionsState) (sid : Nat)
    (jar : DynamicJar) (mode : PyMode)
    (hj : Sessions.jar_get s sid = some jar)
    (he : jar.cookies = []) :
    Sessions.get s sid mode = some GetResult.emptyDict := by
  unfold Sessions.get
  rw [hj]
  show (if jar.cookies = [] then some GetResult.emptyDict
      else some (GetResult.list
        ((Sessions.flatten_cookiejar jar).map (formatCookie mode))))
    = some GetResult.emptyDict
  rw [if_pos he]

/-- C9 witness: the empty-storage jar under session id 5 yields `{}` in
dict mode. -/
theorem get_empty_storage_returns_empty_dict_witness :
    Sessions.get sEmpty 5 PyMode.dict = some GetResult.emptyDict :=
  get_empty_storage_returns_empty_dict sEmpty 5 jarEmpty PyMode.dict
    (by decide) rfl

/-! ### C4 -/

/-- C4: for every session id whose jar exists, `Sessions.clear` leaves
that jar with no cookies and `needs_renewal = True`, whether or not a
renewal request is supplied. -/
theorem sessions_clear_empties_jar (s : SessionsState) (sid : Nat)
    (jar : DynamicJar) (rr : Option Request)
    (hj : Sessions.jar_get s sid = some jar) :
    ∃ s', Sessions.clear s sid rr = some s' ∧
      ∃ jar', Sessions.jar_get s' sid = some jar' ∧
        jar'.cookies = [] ∧ jar'.needs_renewal = true := by
  refine ⟨{ s with jars := updA s.jars sid { jar with needs_renewal := true, cookies := [] } }, ?_, { jar with needs_renewal := true, cookies := [] }, lookupA_updA_self _ _ _, rfl, rfl⟩
  simp [Sessions.clear, hj]

/-- C4 witness: clearing session 0 of the two-cookie state with no renewal
request. -/
theorem sessions_clear_empties_jar_witness :
    ∃ s', Sessions.clear sTwoNames 0 none = some s' ∧
      ∃ jar', Sessions.jar_get s' 0 = some jar' ∧
        jar'.cookies = [] ∧ jar'.needs_renewal = true :=
  sessions_clear_empties_jar sTwoNames 0 jarTwoNames none (by decide)

/-! ### C5 -/

/-- C5: `Profiles.add_profile` leaves `request.meta[proxy]` and the
`Proxy-Authorization` header unchanged when the assigned profile has no
`proxy` key, leaves the `User-Agent` header unchanged when it has no
`user-agent` key, and with neither key returns the request entirely
unchanged (and raises nothing). -/
theorem add_profile_frame (p : ProfilesState) (sid : Nat) (req : Request)
    (prof : Profile) (hl : lookupA p.ref sid = some prof) :
    (prof.proxy = none →
      lookupA (Profiles.add_profile p sid req).1.meta proxyKey
        = lookupA req.meta proxyKey ∧
      lookupA (Profiles.add_profile p sid req).1.headers proxyAuthKey
        = lookupA req.headers proxyAuthKey) ∧
    (prof.user_agent = none →
      lookupA (Profiles.add_profile p sid req).1.headers userAgentKey
        = lookupA req.headers userAgentKey) ∧
    (prof.proxy = none → prof.user_agent = none →
      Profiles.add_profile p sid req = (req, none)) := by
  refine ⟨?_, ?_, ?_⟩
  · intro hpx
    cases hua : prof.user_agent with
    | none => simp [Profiles.add_profile, hl, hpx, hua]
    | some ua =>
      simp only [Profiles.add_profile, hl, hpx, hua]
      refine ⟨trivial, ?_⟩
      exact lookupA_updA_ne _ _ _ _ (by decide)
  · intro hua
    cases hpx : prof.proxy with
    | none => simp [Profiles.add_profile, hl, hpx, hua]
    | some pr =>
      simp only [Profiles.add_profile, hl, hpx, hua]
      exact lookupA_updA_ne _ _ _ _ (by decide)
  · intro hpx hua
    simp [Profiles.add_profile, hl, hpx, hua]

/-- A `Profiles` state whose ledger maps session 7 to a profile with
neither a `proxy` nor a `user-agent` key. -/
def pStateNoKeys : ProfilesState :=
  { profiles := twoProfiles, available := [1], used := [0],
    ref := [(7, { proxy := none, user_agent := none })] }

/-- A concrete outgoing request with unrelated meta and header entries. -/
def reqFix : Request :=
  { meta := [("download_timeout", "30")],
    headers := [("Accept", "text/html")] }

/-- C5 witness: with neither key present the request comes back entirely
unchanged. -/
theorem add_profile_frame_witness :
    Profiles.add_profile pStateNoKeys 7 reqFix = (reqFix, none) :=
  (add_profile_frame pStateNoKeys 7 reqFix
    { proxy := none, user_agent := none } (by decide)).2.2 rfl rfl

/-! ### C7 -/

/-- C7: when the `Sessions` object was built with `profiles=None`,
`get_profile` does *not* raise the intended `UsageError`: evaluating the
`raise UsageError(...)` statement raises `NameError` for the unbound
identifier `UsageError`, which `objects.py` never imports or defines. -/
theorem get_profile_profiles_disabled (s : SessionsState) (sid : Nat)
    (h : s.profiles = none) :
    Sessions.get_profile s sid
      = Except.error (PyError.nameError "UsageError") := by
  simp [Sessions.get_profile, h]

/-- C7 witness: a profile-sync-disabled state raises the `NameError`. -/
theorem get_profile_profiles_disabled_witness :
    Sessions.get_profile sEmpty 0
      = Except.error (PyError.nameError "UsageError") :=
  get_profile_profiles_disabled sEmpty 0 rfl

/-! ### C8 -/

/-- C8: for a session id never assigned a profile, `add_profile` raises an
uncaught `KeyError` (from `self.ref[session_id]`, evaluated before any
mutation) and leaves the request unchanged. -/
theorem add_profile_missing_session (p : ProfilesState) (sid : Nat)
    (req : Request) (h : lookupA p.ref sid = none) :
    Profiles.add_profile p sid req = (req, some PyError.keyError) := by
  simp [Profiles.add_profile, h]

/-- C8 witness: a freshly initialised pool has an empty ledger, so
session 3 raises `KeyError` and the request is untouched. -/
theorem add_profile_missing_session_witness :
    Profiles.add_profile (Profiles.init twoProfiles) 3 reqFix
      = (reqFix, some PyError.keyError) :=
  add_profile_missing_session (Profiles.init twoProfiles) 3 reqFix
    (by decide)

/-! ### C10 -/

/-- C10: with profile sync enabled, `get_profile` on a session id that was
never assigned a profile returns `None` (via `dict.get(session_id, None)`)
rather than raising. -/
theorem get_profile_unassigned_returns_none (s : SessionsState) (sid : Nat)
    (ps : ProfilesState) (h : s.profiles = some ps)
    (hn : lookupA ps.ref sid = none) :
    Sessions.get_profile s sid = Except.ok none := by
  simp [Sessions.get_profile, h, hn]

/-- A sessions state with profile sync enabled over the two-profile pool
and an empty ledger. -/
def sWithProfiles : SessionsState :=
  { jars := [], profiles := some (Profiles.init twoProfiles) }

/-- C10 witness: session 42 was never assigned, so `None` is returned. -/
theorem get_profile_unassigned_returns_none_witness :
    Sessions.get_profile sWithProfiles 42 = Except.ok none :=
  get_profile_unassigned_returns_none sWithProfiles 42
    (Profiles.init twoProfiles) rfl (by decide)

/-! ### C6 -/

/-- Splitting a concatenation at a separator absent from both prefixes is
unambiguous. -/
theorem append_cons_of_not_mem {α : Type} (c : α) :
    ∀ (a b r s : List α), c ∉ a → c ∉ b →
    a ++ c :: r = b ++ c :: s → a = b ∧ r = s := by
  intro a
  induction a with
  | nil =>
    intro b r s _ hb heq
    cases b with
    | nil => simpa using heq
    | cons x bs =>
      simp only [List.nil_append, List.cons_append, List.cons.injEq] at heq
      exact absurd (by rw [heq.1]; exact List.mem_cons_self x bs) hb
  | cons x as ih =>
    intro b r s ha hb heq
    cases b with
    | nil =>
      simp only [List.cons_append, List.nil_append, List.cons.injEq] at heq
      exact absurd (by rw [← heq.1]; exact List.mem_cons_self x as) ha
    | cons y bs =>
      simp only [List.cons_append, List.cons.injEq] at heq
      obtain ⟨rfl, heq2⟩ := heq
      have ha2 : c ∉ as := fun h => ha (List.mem_cons_of_mem _ h)
      have hb2 : c ∉ bs := fun h => hb (List.mem_cons_of_mem _ h)
      obtain ⟨h1, h2⟩ := ih bs r s ha2 hb2 heq2
      exact ⟨by rw [h1], h2⟩

/-- For cookies whose name is free of the `=` character and whose value is
free of the `;` character, the Netscape-style string entry determines the
dict entry: equal strings force equal names and equal values. -/
theorem httpcookie_str_determines_dict {c1 c2 : Cookie}
    (h1 : ('=' : Char) ∉ c1.name) (h2 : ('=' : Char) ∉ c2.name)
    (h3 : (';' : Char) ∉ c1.value) (h4 : (';' : Char) ∉ c2.value)
    (heq : Sessions.httpcookie_to_str c1 = Sessions.httpcookie_to_str c2) :
    Sessions.httpcookie_to_dict c1 = Sessions.httpcookie_to_dict c2 := by
  have hEq : "=".data = ['='] := rfl
  have hSemi : "; ".data = [';', ' '] := rfl
  unfold Sessions.httpcookie_to_str at heq
  simp only [Entry.strE.injEq, hEq, hSemi, List.cons_append,
    List.nil_append, List.append_assoc] at heq
  obtain ⟨hname, hrest⟩ := append_cons_of_not_mem '=' _ _ _ _ h1 h2 heq
  obtain ⟨hval, _⟩ := append_cons_of_not_mem ';' _ _ _ _ h3 h4 hrest
  unfold Sessions.httpcookie_to_dict
  rw [hname, hval]

/-- Pointwise: equal string-mode entry lists force equal dict-mode entry
lists, under the separator-freedom side conditions. -/
theorem map_str_eq_imp_map_dict :
    ∀ (l1 l2 : List Cookie),
    (∀ c ∈ l1, ('=' : Char) ∉ c.name ∧ (';' : Char) ∉ c.value) →
    (∀ c ∈ l2, ('=' : Char) ∉ c.name ∧ (';' : Char) ∉ c.value) →
    l1.map Sessions.httpcookie_to_str = l2.map Sessions.httpcookie_to_str →
    l1.map Sessions.httpcookie_to_dict
      = l2.map Sessions.httpcookie_to_dict := by
  intro l1
  induction l1 with
  | nil =>
    intro l2 _ _ heq
    cases l2 with
    | nil => rfl
    | cons c cs => simp at heq
  | cons c cs ih =>
    intro l2 hc1 hc2 heq
    cases l2 with
    | nil => simp at heq
    | cons d ds =>
      simp only [List.map_cons, List.cons.injEq] at heq ⊢
      have hcd := hc1 c (by simp)
      have hdd := hc2 d (by simp)
      refine ⟨httpcookie_str_determines_dict hcd.1 hdd.1 hcd.2 hdd.2
        heq.1, ?_⟩
      exact ih ds (fun x hx => hc1 x (by simp [hx]))
        (fun x hx => hc2 x (by simp [hx])) heq.2

/-- C6 amended: for jars whose cookies have `=`-free names and `;`-free
values, the string-mode output of `Sessions.get` determines the dict-mode
output (the string entry carries the name and value, plus expires, path and
domain); the converse direction of the original claim is refuted
separately, since a dict entry omits expires, path and domain. -/
theorem get_str_mode_determines_dict_mode
    (s1 s2 : SessionsState) (sid1 sid2 : Nat) (j1 j2 : DynamicJar)
    (hj1 : Sessions.jar_get s1 sid1 = some j1)
    (hj2 : Sessions.jar_get s2 sid2 = some j2)
    (hc1 : ∀ c ∈ Sessions.flatten_cookiejar j1,
      ('=' : Char) ∉ c.name ∧ (';' : Char) ∉ c.value)
    (hc2 : ∀ c ∈ Sessions.flatten_cookiejar j2,
      ('=' : Char) ∉ c.name ∧ (';' : Char) ∉ c.value)
    (hstr : Sessions.get s1 sid1 PyMode.noneV
      = Sessions.get s2 sid2 PyMode.noneV) :
    Sessions.get s1 sid1 PyMode.dict = Sessions.get s2 sid2 PyMode.dict := by
  unfold Sessions.get at hstr ⊢
  rw [hj1, hj2] at hstr ⊢
  simp only at hstr ⊢
  by_cases he1 : j1.cookies = [] <;> by_cases he2 : j2.cookies = []
  · rw [if_pos he1, if_pos he2]
  · rw [if_pos he1] at hstr ⊢
    rw [if_neg he2] at hstr ⊢
    simp at hstr
  · rw [if_neg he1] at hstr ⊢
    rw [if_pos he2] at hstr ⊢
    simp at hstr
  · rw [if_neg he1] at hstr ⊢
    rw [if_neg he2] at hstr ⊢
    have hmaps : (Sessions.flatten_cookiejar j1).map Sessions.httpcookie_to_str
        = (Sessions.flatten_cookiejar j2).map Sessions.httpcookie_to_str := by
      have hs := hstr
      simp only [Option.some.injEq, GetResult.list.injEq] at hs
      simpa [formatCookie] using hs
    have hd := map_str_eq_imp_map_dict _ _ hc1 hc2 hmaps
    simp only [Option.some.injEq, GetResult.list.injEq]
    simpa [formatCookie] using hd

/-- Cookie `n=v` on domain `d1`. -/
def cookieD1 : Cookie :=
  { name := "n".data, value := "v".data, expires := 0,
    path := "p".data, domain := "d1".data }

/-- Cookie `n=v` on domain `d2` — same name and value as `cookieD1`. -/
def cookieD2 : Cookie :=
  { name := "n".data, value := "v".data, expires := 0,
    path := "p".data, domain := "d2".data }

/-- Jar holding only `cookieD1`. -/
def jarD1 : DynamicJar :=
  { cookies := [("d1".data, [("p".data, [("n".data, cookieD1)])])],
    needs_renewal := false, times_renewed := 0 }

/-- Jar holding only `cookieD2`. -/
def jarD2 : DynamicJar :=
  { cookies := [("d2".data, [("p".data, [("n".data, cookieD2)])])],
    needs_renewal := false, times_renewed := 0 }

/-- Sessions state holding `jarD1` under session id 0. -/
def sD1 : SessionsState := { jars := [(0, jarD1)], profiles := none }

/-- Sessions state holding `jarD2` under session id 0. -/
def sD2 : SessionsState := { jars := [(0, jarD2)], profiles := none }

/-- Sessions state holding `jarD1` under session id 3. -/
def sD1b : SessionsState := { jars := [(3, jarD1)], profiles := none }

/-- C6 counterexample: two jars whose cookies differ only in domain have
identical dict-mode outputs but different string-mode outputs, so a
dict-mode entry does not determine the corresponding string-mode entry. -/
theorem get_dict_mode_not_determining :
    Sessions.get sD1 0 PyMode.dict = Sessions.get sD2 0 PyMode.dict ∧
    Sessions.get sD1 0 PyMode.noneV ≠ Sessions.get sD2 0 PyMode.noneV := by
  decide

/-- C6 witness: two states holding structurally equal jars under different
session ids; their equal string-mode outputs force equal dict-mode
outputs. -/
theorem get_str_mode_determines_dict_mode_witness :
    Sessions.get sD1 0 PyMode.dict = Sessions.get sD1b 3 PyMode.dict :=
  get_str_mode_determines_dict_mode sD1 sD1b 0 3 jarD1 jarD1
    (by decide) (by decide) (by decide) (by decide) (by decide)
